import Mathlib

/-!
Verification of the slot_bot appointment-polling bot.

Shallow embedding of the change-detection, notification, subscription and
scheduling logic of the repository (basic_bot.py, checker.py,
appointment_checker.py, slot_bot.py, utils.py, constants.py).
Dates parsed from YYYY-MM-DD strings are modelled as year/month/day
triples compared lexicographically, which agrees with Python datetime
comparison of the parsed values.  Python datetime instants (which carry a
time of day) are modelled as a count of seconds.
-/

namespace SlotBot

/-- Calendar date, the result of datetime.strptime(s, "%Y-%m-%d") on a
well-formed date string. -/
structure Date where
  year : Nat
  month : Nat
  day : Nat
deriving DecidableEq, Repr

/-- Python datetime comparison of two parsed dates: lexicographic on
(year, month, day). -/
def Date.earlier (a b : Date) : Bool :=
  if a.year ≠ b.year then decide (a.year < b.year)
  else if a.month ≠ b.month then decide (a.month < b.month)
  else decide (a.day < b.day)

/-- Association-list lookup, the model of Python dict membership and
indexing (dict keys are unique; entries keep insertion order). -/
def lookupKey {α β : Type} [DecidableEq α] : List (α × β) → α → Option β
  | [], _ => none
  | (k, v) :: rest, a => if k = a then some v else lookupKey rest a

/-- Association-list update, the model of Python dict assignment
d[k] = v: replaces the value in place when the key exists, appends a new
entry otherwise. -/
def setKey {α β : Type} [DecidableEq α] : List (α × β) → α → β → List (α × β)
  | [], a, b => [(a, b)]
  | (k, v) :: rest, a, b => if k = a then (k, b) :: rest else (k, v) :: setKey rest a b

/-- Association-list removal, the model of Python del d[k]. -/
def removeKey {α β : Type} [DecidableEq α] : List (α × β) → α → List (α × β)
  | [], _ => []
  | (k, v) :: rest, a => if k = a then rest else (k, v) :: removeKey rest a

/-! ## Change detection (basic_bot.py, check_visa_appointments, lines 154-258)

Each poll cycle compares the previous earliest date (last_available_date)
with the current earliest date (current_earliest_date, None when the fetch
returned no dates).  The if/elif chain emits one notification kind per
cycle; the branches where no notification is sent are the NoChange event. -/

/-- Event emitted by one poll cycle of check_visa_appointments. -/
inductive VisaEvent where
  | newAvailability (d : Date)
  | earlierAvailability (current previous : Date)
  | noChange
  | availabilityLost (previous : Date)
deriving DecidableEq, Repr

/-- Classification performed by the if/elif chain of
check_visa_appointments (basic_bot.py lines 154-258): Case 1 fires when a
date appears and none was known, Case 2 when both exist and the new one is
strictly earlier, Case 3 when the known date disappears; every other
combination sends nothing (noChange). -/
def classify (lastAvailable currentEarliest : Option Date) : VisaEvent :=
  match currentEarliest, lastAvailable with
  | some d, none => VisaEvent.newAvailability d
  | some d2, some d1 =>
      if Date.earlier d2 d1 then VisaEvent.earlierAvailability d2 d1 else VisaEvent.noChange
  | none, some d1 => VisaEvent.availabilityLost d1
  | none, none => VisaEvent.noChange

/-- Modelled from the spec's transition table (§4.3): previous none and
current some D yields NewAvailability(D); some D1 to some D2 with D2 < D1
yields EarlierAvailability(D2, D1); D2 >= D1 yields NoChange; some D1 to
none yields AvailabilityLost(D1); none to none yields NoChange.  Written
from the spec's words for comparison with classify. -/
def transitionTableSpec (previous current : Option Date) : VisaEvent :=
  match previous, current with
  | none, some d => VisaEvent.newAvailability d
  | some d1, some d2 =>
      if Date.earlier d2 d1 then VisaEvent.earlierAvailability d2 d1 else VisaEvent.noChange
  | some d1, none => VisaEvent.availabilityLost d1
  | none, none => VisaEvent.noChange

/-! ## Stored date-time pairs (basic_bot.py lines 30, 181-187, 226-232)

list_of_date_times is a module-level dict mapping a date string to the
time list fetched for it.  On a NewAvailability or EarlierAvailability
cycle, the first fetched date is inserted only when absent and its time
list is non-empty; nothing else ever writes to or removes from the dict. -/

/-- One cycle's update of list_of_date_times (basic_bot.py lines 184-187
and 231-232): if first_date not in list_of_date_times and times, then
list_of_date_times[first_date] = times; otherwise the dict is unchanged. -/
def updateKnownDateTimes (m : List (Date × List String)) (firstDate : Date)
    (times : List String) : List (Date × List String) :=
  if (lookupKey m firstDate).isNone ∧ times ≠ [] then m ++ [(firstDate, times)] else m

/-- Eleven distinct dates, June 1st through June 11th 2025, used to drive
eleven insertion cycles. -/
def elevenJuneDates : List Date :=
  (List.range 11).map (fun i => ⟨2025, 6, i + 1⟩)

/-! ## Urgency tagging (basic_bot.py lines 163-171 and 219-223)

Both notification branches append the single line "URGENT: Appointment
available within next 6 months!" exactly when the parsed appointment date
(midnight of that day) is strictly before datetime.now() plus
timedelta(days=180).  Instants are modelled as seconds; the appointment
date contributes a whole number of days (midnight), now is arbitrary. -/

/-- Tag vocabulary for urgency classification.  The code only ever emits
withinSixMonths; withinTenMonths names the spec's approximately-300-day
horizon so that the spec's claim about it can be stated. -/
inductive UrgencyTag where
  | withinSixMonths
  | withinTenMonths
deriving DecidableEq, Repr

/-- Seconds in one day, the unit of timedelta(days=n). -/
def secondsPerDay : Nat := 86400

/-- Urgency tags attached to a NewAvailability or EarlierAvailability
notification (basic_bot.py lines 163-171, 219-223): the single 6-month tag
when appointment_date < datetime.now() + timedelta(days=180), nothing
otherwise.  now and appointmentMidnight are instants in seconds. -/
def urgencyTags (now appointmentMidnight : Nat) : List UrgencyTag :=
  if appointmentMidnight < now + 180 * secondsPerDay then [UrgencyTag.withinSixMonths] else []

/-! ## Randomized poll interval (utils.py lines 7-13)

get_random_interval computes min_interval = int(max_interval * 0.485) and
returns random.randint(min_interval, max_interval), both bounds inclusive.
The float truncation int(m * 0.485) is modelled as exact floor division
m * 485 / 1000.  The randint draw is modelled by reducing an arbitrary
random source r modulo the size of the inclusive range. -/

/-- Lower bound of the randomized interval: int(max_interval * 0.485). -/
def minIntervalOf (maxInterval : Nat) : Nat := maxInterval * 485 / 1000

/-- get_random_interval (utils.py): a draw of random.randint(min_interval,
max_interval) with the randomness supplied by r. -/
def get_random_interval (maxInterval : Nat) (r : Nat) : Nat :=
  minIntervalOf maxInterval + r % (maxInterval - minIntervalOf maxInterval + 1)

/-! ## Broadcast to subscribers (basic_bot.py lines 42-52)

send_to_all_subscribers iterates over subscribed_users.items() and wraps
each bot.send_message call in its own try/except: a successful send is
logged as a sent notification, a raised exception is logged as a failure,
and the loop moves on to the next subscriber either way.  The send
attempt is modelled by a function from (user id, chat id) to a success
Bool; the result collects the delivered and the failed subscribers. -/

/-- Model of send_to_all_subscribers: returns the subscribers whose
delivery succeeded and those whose delivery raised, in iteration order. -/
def send_to_all_subscribers (send : Nat → Nat → Bool) :
    List (Nat × Nat) → List (Nat × Nat) × List (Nat × Nat)
  | [] => ([], [])
  | (userId, chatId) :: rest =>
      let r := send_to_all_subscribers send rest
      if send userId chatId then ((userId, chatId) :: r.1, r.2)
      else (r.1, (userId, chatId) :: r.2)

/-! ## HTTP date and time fetching (appointment_checker.py)

get_available_dates and get_available_times wrap the whole request in
try/except: requests.RequestException (transport), json.JSONDecodeError
(malformed payload) and any other exception are each caught, logged and
converted to [].  The outcome of the underlying request is modelled by an
inductive, with ok carrying the successfully parsed payload. -/

/-- One entry of the days JSON array: {date, business_day}. -/
structure DateEntry where
  date : Date
  business_day : Bool
deriving DecidableEq, Repr

/-- Outcome of the underlying HTTP request and JSON parse. -/
inductive FetchResult (α : Type) where
  | ok (payload : α)
  | transportError
  | malformedPayload
  | otherError
deriving DecidableEq, Repr

/-- True on every non-ok outcome. -/
def FetchResult.isFailure {α : Type} : FetchResult α → Bool
  | FetchResult.ok _ => false
  | _ => true

/-- get_available_dates (appointment_checker.py lines 58-89): success
returns the parsed JSON list; every caught exception returns []. -/
def get_available_dates : FetchResult (List DateEntry) → List DateEntry
  | FetchResult.ok payload => payload
  | _ => []

/-- get_available_times (appointment_checker.py lines 149-184): success
returns data.get("available_times", []); every caught exception
returns []. -/
def get_available_times : FetchResult (List String) → List String
  | FetchResult.ok payload => payload
  | _ => []

/-! ## Poll-task lifecycle (basic_bot.py check_visa_appointments, lines 125-310)

The while loop runs one cycle per iteration.  A login failure sends a
message to the initiating user and breaks out of the loop (lines 129-137).
The entire loop body sits inside one try: an exception that escapes a
cycle (only the two date-comparison blocks have inner handlers) is caught
by the except Exception handler at lines 304-310, which sends an error
message to the initiating user and lets the coroutine return — the loop
does not resume.  A task is also ended from outside by removing the user
from active_visa_checks (the while condition) or by cancellation. -/

/-- What one cycle of the loop body does. -/
inductive CycleOutcome where
  | ok
  | loginFailed
  | raisedError
deriving DecidableEq, Repr

/-- How the task ended. -/
inductive TaskExit where
  | stopRequested
  | authTerminated
  | errorTerminated
deriving DecidableEq, Repr

/-- Model of the check_visa_appointments loop over a schedule of cycle
outcomes: returns how many cycles ran and how the task ended.
loginFailed ends the task through the break after the credentials message;
raisedError ends it through the outer except Exception handler after the
error message; ok continues to the next cycle. -/
def runTask : List CycleOutcome → Nat × TaskExit
  | [] => (0, TaskExit.stopRequested)
  | CycleOutcome.ok :: rest =>
      let r := runTask rest
      (r.1 + 1, r.2)
  | CycleOutcome.loginFailed :: _ => (1, TaskExit.authTerminated)
  | CycleOutcome.raisedError :: _ => (1, TaskExit.errorTerminated)

/-! ## Starting and cancelling visa-check tasks (basic_bot.py lines 378-406, 440-456)

active_visa_checks maps a user id to the asyncio task bound to it.  The
start_visa handler (and the identical start_visa button branch) calls
.cancel() on any task already bound to the user and then immediately
creates and binds a new task; it never awaits the old task.  Under
asyncio, Task.cancel() only requests cancellation: the cancelled coroutine
keeps running until the event loop resumes it at an await point (and a
blocking call such as the synchronous requests-based login cannot be
interrupted at all until it returns), so the model distinguishes a running
task, one whose cancellation has been requested, and one that has actually
terminated. -/

/-- Lifecycle state of one asyncio task. -/
inductive TaskStatus where
  | running
  | cancelRequested
  | terminated
deriving DecidableEq, Repr

/-- State of the visa-check machinery: every created task with its status,
the active_visa_checks binding, and the next fresh task id. -/
structure VisaChecksState where
  statuses : List (Nat × TaskStatus)
  active : List (Nat × Nat)
  nextId : Nat
deriving DecidableEq, Repr

/-- Effect of asyncio.Task.cancel() on a task's status: a running task
becomes cancel-requested; a task already cancel-requested or terminated is
unchanged. -/
def cancelStatus : TaskStatus → TaskStatus
  | TaskStatus.running => TaskStatus.cancelRequested
  | s => s

/-- asyncio.Task.cancel() on task t: its status receives the cancellation
request; every other task is untouched. -/
def cancelTask : List (Nat × TaskStatus) → Nat → List (Nat × TaskStatus)
  | [], _ => []
  | (k, st) :: rest, t =>
      if k = t then (k, cancelStatus st) :: cancelTask rest t
      else (k, st) :: cancelTask rest t

/-- start_visa (basic_bot.py lines 393-400; the button branch at lines
440-450 is identical): if a task is bound to the user, call .cancel() on
it; then asyncio.create_task a new check and bind it to the user.  No
await of the old task occurs between the two steps. -/
def startVisa (s : VisaChecksState) (user : Nat) : VisaChecksState :=
  let statuses1 :=
    match lookupKey s.active user with
    | some t => cancelTask s.statuses t
    | none => s.statuses
  ⟨statuses1 ++ [(s.nextId, TaskStatus.running)],
    setKey s.active user s.nextId,
    s.nextId + 1⟩

/-- Concrete state for the C3 claim: user 7 has task 0 bound and running,
and 1 is the next fresh task id. -/
def c3InitialState : VisaChecksState :=
  ⟨[(0, TaskStatus.running)], [(7, 0)], 1⟩

/-! ## Subscription registry (basic_bot.py lines 313-342, 564-584, 668-693; constants.py line 16)

subscribed_users maps a user id to a chat id.  The /start handler and the
subscribe button reject a request from a user who is not yet subscribed
when len(subscribed_users) >= MAX_SUBSCRIBERS, leaving the dict unchanged;
otherwise they assign subscribed_users[user_id] = chat_id.  The
unsubscribe paths delete the entry when present. -/

/-- MAX_SUBSCRIBERS (constants.py): int(os.getenv(...)), default 4. -/
def MAX_SUBSCRIBERS : Nat := 4

/-- A subscription-management request. -/
inductive SubOp where
  | subscribe (userId chatId : Nat)
  | unsubscribe (userId : Nat)
deriving DecidableEq, Repr

/-- One handler invocation on the subscribed_users dict: subscribe rejects
a new user when the registry already holds maxSubscribers entries, and
otherwise adds or updates the binding; unsubscribe deletes the entry when
present. -/
def applySubOp (maxSubscribers : Nat) (subs : List (Nat × Nat)) : SubOp → List (Nat × Nat)
  | SubOp.subscribe u c =>
      if lookupKey subs u = none ∧ maxSubscribers ≤ subs.length then subs
      else setKey subs u c
  | SubOp.unsubscribe u =>
      match lookupKey subs u with
      | some _ => removeKey subs u
      | none => subs

/-! ## Rebooking time selection (slot_bot.py lines 212-264)

get_time fetches the available times for the target date; when the list
is falsy (empty, which also covers every caught fetch error) it returns
None, otherwise it returns available_times[-1], the last entry.
reschedule calls get_time and aborts (returns False) when the result is
falsy — None, or an empty string. -/

/-- get_time (slot_bot.py lines 212-251) applied to the outcome of the
times fetch: None on an empty list, otherwise the last element. -/
def get_time (r : FetchResult (List String)) : Option String :=
  let availableTimes := get_available_times r
  if availableTimes.isEmpty then none else availableTimes.getLast?

/-- The abort decision of reschedule (slot_bot.py lines 260-264): the
attempt stops before any form submission when get_time returned a falsy
value (None, or Python-falsy empty string). -/
def rescheduleAborts (r : FetchResult (List String)) : Bool :=
  match get_time r with
  | none => true
  | some s => s.isEmpty

end SlotBot

namespace SlotBot

/-- C1: the change detector emits exactly one event per poll cycle (classify
is a total function of the pair of observations), and the emitted kind
coincides with the spec's transition table at every pair; in particular the
three concrete examples of the spec hold: none to 2025-06-01 emits
NewAvailability, 2025-06-01 to 2025-05-20 emits EarlierAvailability with the
new date first, and 2025-06-01 to none emits AvailabilityLost. -/
theorem classify_matches_transition_table :
    (∀ previous current : Option Date, classify previous current = transitionTableSpec previous current)
    ∧ classify none (some ⟨2025, 6, 1⟩) = VisaEvent.newAvailability ⟨2025, 6, 1⟩
    ∧ classify (some ⟨2025, 6, 1⟩) (some ⟨2025, 5, 20⟩)
        = VisaEvent.earlierAvailability ⟨2025, 5, 20⟩ ⟨2025, 6, 1⟩
    ∧ classify (some ⟨2025, 6, 1⟩) none = VisaEvent.availabilityLost ⟨2025, 6, 1⟩ := by
  refine ⟨?_, by decide, by decide, by decide⟩
  intro previous current
  cases previous <;> cases current <;> rfl

/-- Helper: an association-list lookup that succeeds still succeeds with the
same value after entries are appended on the right. -/
theorem lookupKey_append_of_some {α β : Type} [DecidableEq α]
    (m l : List (α × β)) (a : α) (v : β) (h : lookupKey m a = some v) :
    lookupKey (m ++ l) a = some v := by
  induction m with
  | nil => simp [lookupKey] at h
  | cons p rest ih =>
      obtain ⟨k, w⟩ := p
      by_cases hk : k = a
      · simpa [lookupKey, hk] using h
      · simp only [lookupKey, hk, if_false, List.cons_append] at h ⊢
        exact ih h

/-- C2 counterexample: driving eleven NewAvailability/EarlierAvailability
cycles with eleven distinct first dates, each carrying a non-empty time
list, grows list_of_date_times to eleven entries, so the mapping does
exceed the claimed cap of 10; no eviction ever runs. -/
theorem knownDateTimes_cap_counterexample :
    10 < (List.foldl (fun m d => updateKnownDateTimes m d ["09:00"]) [] elevenJuneDates).length := by
  decide

/-- C2 amended: list_of_date_times is unbounded: one cycle's update never
removes or overwrites an existing entry, and when the first date is absent
and its time list non-empty the update appends exactly one entry, so after
n distinct-date insertions the mapping holds n entries and no cap is
enforced. -/
theorem updateKnownDateTimes_no_eviction
    (m : List (Date × List String)) (d : Date) (times : List String) :
    (∀ d' v, lookupKey m d' = some v → lookupKey (updateKnownDateTimes m d times) d' = some v)
    ∧ (lookupKey m d = none → times ≠ [] → (updateKnownDateTimes m d times).length = m.length + 1)
    ∧ m.length ≤ (updateKnownDateTimes m d times).length := by
  unfold updateKnownDateTimes
  by_cases hc : (lookupKey m d).isNone ∧ times ≠ []
  · simp only [if_pos hc]
    refine ⟨fun d' v h => lookupKey_append_of_some m _ d' v h, fun _ _ => ?_, ?_⟩
    · simp
    · simp
  · simp only [if_neg hc]
    refine ⟨fun d' v h => h, fun habs hne => ?_, Nat.le_refl _⟩
    exact absurd ⟨by simp [habs], hne⟩ hc

/-- C2 amended witness: concretely, with one stored date 2025-06-01, an
update inserting 2025-06-02 keeps the stored entry intact. -/
theorem updateKnownDateTimes_no_eviction_witness :
    lookupKey (updateKnownDateTimes [(⟨2025, 6, 1⟩, ["09:00"])] ⟨2025, 6, 2⟩ ["10:00"])
      ⟨2025, 6, 1⟩ = some ["09:00"] :=
  (updateKnownDateTimes_no_eviction [(⟨2025, 6, 1⟩, ["09:00"])] ⟨2025, 6, 2⟩ ["10:00"]).1
    ⟨2025, 6, 1⟩ ["09:00"] (by decide)

/-- C4 counterexample: a date exactly 250 days after now (now taken at
midnight) receives no urgency tag at all from the code, in particular not
the approximately-300-day tag the claim says it gets: the code has no
second horizon. -/
theorem urgency_250_days_counterexample :
    ¬ UrgencyTag.withinTenMonths ∈ urgencyTags 0 (250 * secondsPerDay) := by
  decide

/-- C4 amended: urgency tagging uses a single fixed horizon of 180 days
with strict comparison: a NewAvailability or EarlierAvailability whose
date is strictly before now plus 180 days is tagged "within 6 months", any
later date is tagged nothing, and no approximately-300-day tag is ever
emitted. -/
theorem urgencyTags_single_horizon (now appt : Nat) :
    (appt < now + 180 * secondsPerDay → urgencyTags now appt = [UrgencyTag.withinSixMonths])
    ∧ (now + 180 * secondsPerDay ≤ appt → urgencyTags now appt = [])
    ∧ UrgencyTag.withinTenMonths ∉ urgencyTags now appt := by
  unfold urgencyTags
  by_cases h : appt < now + 180 * secondsPerDay
  · simp [h]
  · simp [h]

/-- C4 amended witness: a date 170 days out (now at midnight) is tagged
"within 6 months". -/
theorem urgencyTags_single_horizon_witness :
    urgencyTags 0 (170 * secondsPerDay) = [UrgencyTag.withinSixMonths] :=
  (urgencyTags_single_horizon 0 (170 * secondsPerDay)).1 (by decide)

/-- C8 counterexample: with configured interval 3, the draw at randomness 0
is int(3 * 0.485) = 1 second, and 1 lies strictly below 0.485 * 3 = 1.455,
so the chosen duration can fall outside the claimed closed range
[interval * 0.485, interval] because the lower endpoint is truncated to an
integer. -/
theorem jitter_lower_bound_counterexample :
    get_random_interval 3 0 = 1 ∧ get_random_interval 3 0 * 1000 < 3 * 485 := by
  decide

/-- C8 amended: for every configured interval, every possible draw of
get_random_interval lies in the closed integer range
[int(interval * 0.485), interval]; in particular the chosen duration never
exceeds the configured interval. -/
theorem get_random_interval_range (maxInterval r : Nat) :
    minIntervalOf maxInterval ≤ get_random_interval maxInterval r
    ∧ get_random_interval maxInterval r ≤ maxInterval := by
  have hmin : minIntervalOf maxInterval ≤ maxInterval := by
    unfold minIntervalOf
    calc maxInterval * 485 / 1000 ≤ maxInterval * 1000 / 1000 :=
          Nat.div_le_div_right (Nat.mul_le_mul_left maxInterval (by norm_num))
      _ = maxInterval := Nat.mul_div_cancel maxInterval (by norm_num)
  have hmod : r % (maxInterval - minIntervalOf maxInterval + 1)
      < maxInterval - minIntervalOf maxInterval + 1 :=
    Nat.mod_lt _ (Nat.succ_pos _)
  unfold get_random_interval
  omega

/-- Helper: the broadcast loop partitions the subscriber snapshot into the
successful sends and the failed ones. -/
theorem send_to_all_subscribers_eq_filter (send : Nat → Nat → Bool)
    (subs : List (Nat × Nat)) :
    send_to_all_subscribers send subs
      = (subs.filter (fun p => send p.1 p.2), subs.filter (fun p => !send p.1 p.2)) := by
  induction subs with
  | nil => rfl
  | cons q rest ih =>
      obtain ⟨u, c⟩ := q
      by_cases hs : send u c = true
      · simp [send_to_all_subscribers, ih, List.filter_cons, hs]
      · simp only [Bool.not_eq_true] at hs
        simp [send_to_all_subscribers, ih, List.filter_cons, hs]

/-- C5: the broadcast attempts delivery to every subscriber of the
snapshot: every subscriber ends up either delivered or failed (the counts
add up to the snapshot size), a subscriber whose send succeeds is
delivered no matter which other subscribers fail, a subscriber whose send
raises is recorded as a failure without stopping the loop; concretely,
with subscriber 1 failing among subscribers 1, 2, 3, the message is
delivered to 2 and 3 and exactly one failure (subscriber 1) is
recorded. -/
theorem broadcast_failure_isolation :
    (∀ (send : Nat → Nat → Bool) (subs : List (Nat × Nat)),
        (send_to_all_subscribers send subs).1.length
            + (send_to_all_subscribers send subs).2.length = subs.length
        ∧ (∀ p ∈ subs, send p.1 p.2 = true → p ∈ (send_to_all_subscribers send subs).1)
        ∧ (∀ p ∈ subs, send p.1 p.2 = false → p ∈ (send_to_all_subscribers send subs).2))
    ∧ send_to_all_subscribers (fun u _ => u != 1) [(1, 10), (2, 20), (3, 30)]
        = ([(2, 20), (3, 30)], [(1, 10)]) := by
  refine ⟨fun send subs => ?_, by decide⟩
  rw [send_to_all_subscribers_eq_filter]
  refine ⟨(@List.length_eq_length_filter_add _ subs (fun p => send p.1 p.2)).symm, ?_, ?_⟩
  · intro p hp hsend
    exact List.mem_filter.mpr ⟨hp, hsend⟩
  · intro p hp hsend
    exact List.mem_filter.mpr ⟨hp, by simp [hsend]⟩

/-- C5 witness: in the one-failing-among-three scenario, subscriber 2 is
concretely among the delivered. -/
theorem broadcast_failure_isolation_witness :
    ((2 : Nat), (20 : Nat))
      ∈ (send_to_all_subscribers (fun u _ => u != 1) [(1, 10), (2, 20), (3, 30)]).1 :=
  (broadcast_failure_isolation.1 (fun u _ => u != 1) [(1, 10), (2, 20), (3, 30)]).2.1
    (2, 20) (by decide) (by decide)

/-- C6 counterexample: the caller of get_available_dates receives only the
date list — a transport error and a malformed payload each produce exactly
the same value as a successful fetch of an empty list, so no typed
FetchError kind is signalled across the boundary. -/
theorem fetch_error_not_signalled_counterexample :
    get_available_dates FetchResult.transportError = get_available_dates (FetchResult.ok [])
    ∧ get_available_dates FetchResult.malformedPayload
        = get_available_dates (FetchResult.ok []) :=
  ⟨rfl, rfl⟩

/-- C6 amended: on transport error, malformed payload or any other caught
exception, get_available_dates and get_available_times return an empty
sequence instead of letting the exception propagate past the component
boundary — a failed fetch during polling is recoverable — but the error is
only logged: no typed FetchError reaches the caller, who cannot
distinguish a failed fetch from a successful empty response. -/
theorem fetch_failure_returns_empty (r : FetchResult (List DateEntry))
    (t : FetchResult (List String)) :
    (r.isFailure = true → get_available_dates r = [])
    ∧ (t.isFailure = true → get_available_times t = []) := by
  cases r <;> cases t <;>
    simp [FetchResult.isFailure, get_available_dates, get_available_times]

/-- C6 amended witness: the transport-error outcome concretely yields the
empty list for both operations. -/
theorem fetch_failure_returns_empty_witness :
    get_available_dates FetchResult.transportError = []
    ∧ get_available_times FetchResult.transportError = [] :=
  ⟨(fetch_failure_returns_empty FetchResult.transportError FetchResult.transportError).1 rfl,
    (fetch_failure_returns_empty FetchResult.transportError FetchResult.transportError).2 rfl⟩

/-- C7 counterexample: a schedule whose first cycle raises an exception not
handled inside the loop body runs one cycle and terminates the task
through the outer except handler — it never reaches the second cycle,
contradicting the claim that a non-authentication exception lets the task
continue to the next cycle. -/
theorem exception_terminates_task_counterexample :
    runTask [CycleOutcome.raisedError, CycleOutcome.ok] = (1, TaskExit.errorTerminated)
    ∧ (runTask [CycleOutcome.raisedError, CycleOutcome.ok]).1 ≠ 2 := by
  decide

/-- C7 amended: within one poll task an authentication failure is terminal:
the task sends a failure message to the initiating user and stops without
retrying authentication, regardless of how many cycles were still
scheduled; likewise any other exception that escapes a cycle is caught by
the task-level handler, which notifies the initiating user and terminates
the task rather than continuing to the next cycle (only the date-comparison
steps have per-cycle handlers); an ok cycle continues the loop. -/
theorem auth_failure_terminal (rest : List CycleOutcome) :
    runTask (CycleOutcome.loginFailed :: rest) = (1, TaskExit.authTerminated)
    ∧ runTask (CycleOutcome.raisedError :: rest) = (1, TaskExit.errorTerminated)
    ∧ runTask (CycleOutcome.ok :: rest) = ((runTask rest).1 + 1, (runTask rest).2) :=
  ⟨rfl, rfl, rfl⟩

/-- C3 counterexample: in the state reached right after the start handler
runs for user 7, the previously bound task 0 has only been asked to cancel
(it has not terminated, and under asyncio it keeps running until the event
loop resumes it) while the new task 1 is already created and running — the
handler did not await the prior task's termination before starting the new
one. -/
theorem start_does_not_await_termination_counterexample :
    lookupKey (startVisa c3InitialState 7).statuses 0 = some TaskStatus.cancelRequested
    ∧ lookupKey (startVisa c3InitialState 7).statuses 1 = some TaskStatus.running
    ∧ lookupKey (startVisa c3InitialState 7).statuses 0 ≠ some TaskStatus.terminated := by
  decide

/-- Helper: cancelTask turns the looked-up running status of the cancelled
task into cancelRequested. -/
theorem lookupKey_cancelTask (sts : List (Nat × TaskStatus)) (t : Nat)
    (h : lookupKey sts t = some TaskStatus.running) :
    lookupKey (cancelTask sts t) t = some TaskStatus.cancelRequested := by
  induction sts with
  | nil => simp [lookupKey] at h
  | cons p rest ih =>
      obtain ⟨k, st⟩ := p
      by_cases hk : k = t
      · subst hk
        simp [lookupKey] at h
        subst h
        simp [cancelTask, lookupKey, cancelStatus]
      · simp only [lookupKey, if_neg hk] at h
        simp only [cancelTask, if_neg hk, lookupKey]
        exact ih h

/-- Helper: after setKey the updated key maps to the new value. -/
theorem lookupKey_setKey_self {α β : Type} [DecidableEq α]
    (l : List (α × β)) (a : α) (b : β) :
    lookupKey (setKey l a b) a = some b := by
  induction l with
  | nil => simp [setKey, lookupKey]
  | cons p rest ih =>
      obtain ⟨k, v⟩ := p
      by_cases hk : k = a
      · simp [setKey, lookupKey, hk]
      · simp [setKey, lookupKey, hk, ih]

/-- C3 amended: a start request for a context with a running prior task
requests cancellation of that prior task and immediately binds the context
to the freshly created task without awaiting the prior task's termination:
afterwards active_visa_checks maps the user to the new task only, but the
prior task is merely cancel-requested — it may still be executing when the
new task starts. -/
theorem startVisa_cancels_without_await (s : VisaChecksState) (user t : Nat)
    (hbound : lookupKey s.active user = some t)
    (hrun : lookupKey s.statuses t = some TaskStatus.running) :
    lookupKey (startVisa s user).statuses t = some TaskStatus.cancelRequested
    ∧ lookupKey (startVisa s user).active user = some s.nextId := by
  constructor
  · show lookupKey
      ((match lookupKey s.active user with
        | some t0 => cancelTask s.statuses t0
        | none => s.statuses) ++ [(s.nextId, TaskStatus.running)]) t = _
    rw [hbound]
    exact lookupKey_append_of_some _ _ _ _ (lookupKey_cancelTask s.statuses t hrun)
  · exact lookupKey_setKey_self s.active user s.nextId

/-- C3 amended witness: concretely, starting again for user 7 of the
initial state leaves task 0 cancel-requested and binds user 7 to the new
task 1. -/
theorem startVisa_cancels_without_await_witness :
    lookupKey (startVisa c3InitialState 7).statuses 0 = some TaskStatus.cancelRequested
    ∧ lookupKey (startVisa c3InitialState 7).active 7 = some 1 :=
  startVisa_cancels_without_await c3InitialState 7 0 (by decide) (by decide)

/-- Helper: setKey on an absent key appends exactly one entry. -/
theorem setKey_length_of_none {α β : Type} [DecidableEq α]
    (l : List (α × β)) (a : α) (b : β) (h : lookupKey l a = none) :
    (setKey l a b).length = l.length + 1 := by
  induction l with
  | nil => rfl
  | cons p rest ih =>
      obtain ⟨k, v⟩ := p
      by_cases hk : k = a
      · simp [lookupKey, hk] at h
      · simp only [lookupKey, if_neg hk] at h
        simp only [setKey, if_neg hk, List.length_cons, ih h]

/-- Helper: setKey on a present key keeps the length. -/
theorem setKey_length_of_some {α β : Type} [DecidableEq α]
    (l : List (α × β)) (a : α) (b : β) (h : lookupKey l a ≠ none) :
    (setKey l a b).length = l.length := by
  induction l with
  | nil => exact absurd rfl h
  | cons p rest ih =>
      obtain ⟨k, v⟩ := p
      by_cases hk : k = a
      · simp [setKey, hk]
      · simp only [lookupKey, if_neg hk] at h
        simp only [setKey, if_neg hk, List.length_cons, ih h]

/-- Helper: removeKey never lengthens the list. -/
theorem removeKey_length_le {α β : Type} [DecidableEq α] (l : List (α × β)) (a : α) :
    (removeKey l a).length ≤ l.length := by
  induction l with
  | nil => exact Nat.le_refl _
  | cons p rest ih =>
      obtain ⟨k, v⟩ := p
      by_cases hk : k = a
      · simp only [removeKey, if_pos hk, List.length_cons]
        omega
      · simp only [removeKey, if_neg hk, List.length_cons]
        omega

/-- Helper: one subscription-management request keeps the registry within
the cap. -/
theorem applySubOp_length_le (cap : Nat) (subs : List (Nat × Nat)) (op : SubOp)
    (hlen : subs.length ≤ cap) : (applySubOp cap subs op).length ≤ cap := by
  cases op with
  | subscribe u c =>
      simp only [applySubOp]
      by_cases hcond : lookupKey subs u = none ∧ cap ≤ subs.length
      · rw [if_pos hcond]
        exact hlen
      · rw [if_neg hcond]
        by_cases hk : lookupKey subs u = none
        · rw [setKey_length_of_none subs u c hk]
          have : subs.length < cap := by
            rcases Nat.lt_or_ge subs.length cap with h | h
            · exact h
            · exact absurd ⟨hk, h⟩ hcond
          omega
        · rw [setKey_length_of_some subs u c hk]
          exact hlen
  | unsubscribe u =>
      simp only [applySubOp]
      cases hku : lookupKey subs u with
      | some c =>
          exact le_trans (removeKey_length_le subs u) hlen
      | none => exact hlen

/-- Helper: a whole sequence of subscription-management requests keeps the
registry within the cap. -/
theorem foldl_applySubOp_length_le (cap : Nat) (ops : List SubOp) :
    ∀ subs : List (Nat × Nat), subs.length ≤ cap →
      (List.foldl (applySubOp cap) subs ops).length ≤ cap := by
  induction ops with
  | nil =>
      intro subs h
      simpa using h
  | cons op rest ih =>
      intro subs h
      exact ih (applySubOp cap subs op) (applySubOp_length_le cap subs op h)

/-- C9: starting from any registry within the cap, no sequence of
subscribe/unsubscribe requests ever pushes subscribed_users past
maxSubscribers entries, and a subscribe request from a user not in the
registry arriving when the registry is exactly full is rejected and leaves
the registry unchanged (reject-new policy). -/
theorem subscriber_cap_invariant (cap : Nat) (subs : List (Nat × Nat)) (ops : List SubOp)
    (hlen : subs.length ≤ cap) :
    (List.foldl (applySubOp cap) subs ops).length ≤ cap
    ∧ (∀ u c, lookupKey subs u = none → subs.length = cap →
        applySubOp cap subs (SubOp.subscribe u c) = subs) := by
  constructor
  · exact foldl_applySubOp_length_le cap ops subs hlen
  · intro u c hu hfull
    simp only [applySubOp]
    rw [if_pos ⟨hu, Nat.le_of_eq hfull.symm⟩]

/-- C9 witness: with the default MAX_SUBSCRIBERS of 4 and a full registry
of users 1-4, a subscribe request from new user 5 leaves the registry
unchanged. -/
theorem subscriber_cap_invariant_witness :
    applySubOp MAX_SUBSCRIBERS [(1, 10), (2, 20), (3, 30), (4, 40)] (SubOp.subscribe 5 50)
      = [(1, 10), (2, 20), (3, 30), (4, 40)] :=
  (subscriber_cap_invariant MAX_SUBSCRIBERS [(1, 10), (2, 20), (3, 30), (4, 40)] []
      (by decide)).2 5 50 (by decide) (by decide)

/-- C10: when the times fetch for the target date succeeds with a
non-empty list, get_time selects exactly the last element of that list
(the latest time of the day, not the first); when the list is empty it
returns None and the reschedule attempt aborts before any form
submission. -/
theorem get_time_selects_last (times : List String) :
    (∀ h : times ≠ [], get_time (FetchResult.ok times) = some (times.getLast h))
    ∧ (times = [] →
        get_time (FetchResult.ok times) = none
        ∧ rescheduleAborts (FetchResult.ok times) = true) := by
  constructor
  · intro h
    unfold get_time get_available_times
    simp only [List.isEmpty_iff]
    rw [if_neg h]
    exact List.getLast?_eq_getLast_of_ne_nil h
  · intro h
    subst h
    exact ⟨rfl, rfl⟩

/-- C10 witness: with available times 08:00 and 16:30 the selected slot is
16:30, the last entry. -/
theorem get_time_selects_last_witness :
    get_time (FetchResult.ok ["08:00", "16:30"]) = some "16:30" :=
  (get_time_selects_last ["08:00", "16:30"]).1 (by decide)

end SlotBot
